import Mathlib

/-!
Verification development for the MetinFishingCV core.

This file shallowly embeds the three subsystems the specification covers:

* the multi-scale template locator (cv_utils.get_image_template),
* the vision pipeline (FishingDetection.FishingVision), and
* the timed state machine (FishingBot.FishingBot).

Pixel-level OpenCV primitives (matchTemplate plus minMaxLoc, inRange mask
sums, findContours bounding rectangles) are abstracted as per-frame
observation functions carried by the frame value; all surrounding
arithmetic, bookkeeping and control flow is translated directly from the
Python source.  Machine floats are modelled with exact rationals; the
Python int() conversion of the nonnegative quantities involved is floor.
-/

/-- Evaluation helper: Int.toNat on a numeral. -/
theorem int_toNat_ofNat (n : ℕ) [n.AtLeastTwo] :
    (Int.toNat (no_index (OfNat.ofNat n))) = OfNat.ofNat n := rfl

/-- Python int() applied to the nonnegative reals that occur here:
truncation towards zero, i.e. the floor, as a natural number. -/
def pyInt (q : ℚ) : ℕ := (⌊q⌋).toNat

/-- np.linspace low high num: num evenly spaced samples from low to high
inclusive (num = 1 gives [low], num = 0 gives []). -/
def linspace (low high : ℚ) (num : ℕ) : List ℚ :=
  if num = 0 then []
  else if num = 1 then [low]
  else (List.range num).map
    (fun i : ℕ => low + (i : ℚ) * (high - low) / ((num : ℚ) - 1))

/-- Dimension after the optional downsampling step of get_image_template:
cv2.resize to int(dim * resize_factor) is only applied when
resize_factor < 1. -/
def dsDim (rf : ℚ) (n : ℕ) : ℕ := if rf < 1 then pyInt ((n : ℚ) * rf) else n

/-- The bookkeeping tuple `found = (maxVal, maxLoc, r, scale)` of
cv_utils.get_image_template. -/
structure TMatch where
  maxVal : ℚ
  locX : ℕ
  locY : ℕ
  r : ℚ
  scale : ℚ
deriving DecidableEq

/-- Observation function standing for
minMaxLoc(matchTemplate(resized, template, TM_CCOEFF_NORMED)): given the
resized frame width, height and the scale that produced it, yields the
best correlation value and its location.  It is a per-frame datum because
its value is determined by the frame pixels. -/
abbrev TMOracle := ℕ → ℕ → ℚ → ℚ × ℕ × ℕ

/-- The scale-skip test of the loop in get_image_template: the resized
frame (height int(grayH*scale), width int(grayW*scale)) is smaller than
the template in either dimension. -/
def skipScale (grayH grayW tH tW : ℕ) (s : ℚ) : Bool :=
  decide (pyInt ((grayH : ℚ) * s) < tH) || decide (pyInt ((grayW : ℚ) * s) < tW)

/-- The candidate bookkeeping tuple built for scale s in the loop body of
get_image_template: (maxVal, maxLoc, r = 1/scale, scale). -/
def mkFound (oracle : TMOracle) (grayH grayW : ℕ) (s : ℚ) : TMatch :=
  let m := oracle (pyInt ((grayW : ℚ) * s)) (pyInt ((grayH : ℚ) * s)) s
  ⟨m.1, m.2.1, m.2.2, 1 / s, s⟩

/-- One update of the running best: `if found is None or maxVal > found[0]`
(a tie never replaces the running best). -/
def tmStep (oracle : TMOracle) (grayH grayW : ℕ) (acc : Option TMatch) (s : ℚ) :
    Option TMatch :=
  match acc with
  | none => some (mkFound oracle grayH grayW s)
  | some f =>
    if (mkFound oracle grayH grayW s).maxVal > f.maxVal then
      some (mkFound oracle grayH grayW s)
    else some f

/-- The scale loop of get_image_template, including the break on the first
scale whose resized frame is smaller than the template. -/
def scanScales (oracle : TMOracle) (grayH grayW tH tW : ℕ) :
    List ℚ → Option TMatch → Option TMatch
  | [], acc => acc
  | s :: rest, acc =>
    if skipScale grayH grayW tH tW s then acc
    else scanScales oracle grayH grayW tH tW rest (tmStep oracle grayH grayW acc s)

/-- The scales the loop actually evaluates: the longest break-free front
segment of the iteration list. -/
def evalPrefix (grayH grayW tH tW : ℕ) : List ℚ → List ℚ
  | [] => []
  | s :: rest =>
    if skipScale grayH grayW tH tW s then []
    else s :: evalPrefix grayH grayW tH tW rest

/-- Failure modes of the embedded cv layer: the ValueError raised when
resize_factor > 1 (the spec's InvalidConfig) and the failure when the
loop never produced a candidate (the spec's NoCandidateScale; the Python
source reaches an unpack of None there). -/
inductive CvError where
  | invalidConfig
  | noCandidateScale
deriving DecidableEq

/-- Result tuple of get_image_template:
(startX, startY, width, height, corr, scale). -/
structure TMResult where
  x : ℕ
  y : ℕ
  width : ℕ
  height : ℕ
  corr : ℚ
  scale : ℚ
deriving DecidableEq

/-- cv_utils.get_image_template.  The image and template enter through
their dimensions and the match oracle; everything else mirrors the source:
reject resize_factor > 1, optionally downsample both images, iterate the
linspace scales in descending order keeping a strict-improvement arg-max,
fail when no candidate was recorded, and convert the winner back through
r = 1/scale (and, when resize_factor < 1, through 1/resize_factor for the
location only — the width/height are taken from the original template
size). -/
def get_image_template (imgH imgW tmplH tmplW : ℕ) (oracle : TMOracle)
    (low_scale high_scale : ℚ) (num_searches : ℕ) (resize_factor : ℚ) :
    Except CvError TMResult :=
  if resize_factor > 1 then .error .invalidConfig
  else
    let grayH := dsDim resize_factor imgH
    let grayW := dsDim resize_factor imgW
    let tH := dsDim resize_factor tmplH
    let tW := dsDim resize_factor tmplW
    match scanScales oracle grayH grayW tH tW
        ((linspace low_scale high_scale num_searches).reverse) none with
    | none => .error .noCandidateScale
    | some f =>
      let startX := pyInt ((f.locX : ℚ) * f.r)
      let startY := pyInt ((f.locY : ℚ) * f.r)
      let width := pyInt ((tmplW : ℚ) * f.r)
      let height := pyInt ((tmplH : ℚ) * f.r)
      let startX := if resize_factor < 1 then pyInt ((startX : ℚ) * (1 / resize_factor)) else startX
      let startY := if resize_factor < 1 then pyInt ((startY : ℚ) * (1 / resize_factor)) else startY
      .ok ⟨startX, startY, width, height, f.maxVal, f.scale⟩

/-! ## FishingDetection.FishingVision -/

/-- FishingVision.GAME_THRESHOLD. -/
def GAME_THRESHOLD : ℚ := 7/10

/-- FishingVision.BORDER_OFFSET. -/
def BORDER_OFFSET : ℕ := 10

/-- FishingVision.BORDER_OFFSET_TITLE. -/
def BORDER_OFFSET_TITLE : ℕ := 28

/-- FishingVision.GRAB_THRESHOLD_SUM. -/
def GRAB_THRESHOLD_SUM : ℕ := 40000

/-- FishingVision.FISH_COLOR_LBOUND / HBOUND (HSV per-channel bounds). -/
def FISH_COLOR_LBOUND : List ℕ := [73, 99, 116]

/-- FishingVision.FISH_COLOR_HBOUND. -/
def FISH_COLOR_HBOUND : List ℕ := [144, 154, 132]

/-- FishingVision.GRAB_COLOR_LBOUND. -/
def GRAB_COLOR_LBOUND : List ℕ := [118, 56, 141]

/-- FishingVision.GRAB_COLOR_HBOUND. -/
def GRAB_COLOR_HBOUND : List ℕ := [255, 144, 255]

/-- The configuration a FishingVision instance stores in __init__. -/
structure FishingVisionCfg where
  lower_scale : ℚ
  higher_scale : ℚ
  num_templates_searches : ℕ
  resize_factor : ℚ
  debug : Bool
  tmplH : ℕ
  tmplW : ℕ
deriving DecidableEq

/-- FishingVision.__init__: it stores its parameters and loads/pre-smooths
the template; it performs no validation of any parameter.  The error monad
records where an InvalidConfig failure could surface; __init__ itself
never produces one. -/
def FishingVision.init (tmplH tmplW : ℕ) (lower_scale higher_scale : ℚ)
    (num_templates_searches : ℕ) (debug : Bool) (resize_factor : ℚ) :
    Except CvError FishingVisionCfg :=
  .ok ⟨lower_scale, higher_scale, num_templates_searches, resize_factor, debug, tmplH, tmplW⟩

/-- One captured frame, represented by its dimensions together with the
observation functions that stand for the pixel-dependent OpenCV
primitives applied to the (bilateral-filtered) frame:

* tm: the template-match oracle on the resized grayscale frame;
* grabSum: np.sum of the GRAB_COLOR inRange mask over a crop rectangle
  (x, y, w, h; w and h may be nonpositive, giving an empty numpy slice);
* fishRect: the bounding rectangle of the largest external contour of the
  FISH_COLOR inRange mask over a crop rectangle, or none when the mask
  has no contours (the ValueError path of detect_object_color). -/
structure Frame where
  h : ℕ
  w : ℕ
  tm : TMOracle
  grabSum : ℕ → ℕ → ℤ → ℤ → ℕ
  fishRect : ℕ → ℕ → ℤ → ℤ → Option (ℕ × ℕ × ℕ × ℕ)

/-- What the debug rendering of get_fishing_state composed: the blurred
frame overlaid at the crop corner with either the annotated fish/circle
masks (active branch) or the raw crop (inactive branch). -/
inductive DbgRender where
  | active (cropX cropY : ℕ) (fishable : Bool) (fishFound : Bool)
  | inactive (cropX cropY : ℕ)
deriving DecidableEq

/-- The feature tuple produced per frame:
(x, y, width, height, fishable, fish_detectable, game_on). -/
structure FishState where
  x : ℕ
  y : ℕ
  w : ℕ
  h : ℕ
  fishable : Bool
  fish_detectable : Bool
  game_on : Bool
deriving DecidableEq

/-- FishingVision.get_game_template_crop: locate the game template, then
shrink the box by the border offsets (title bar at the top). -/
def get_game_template_crop (cfg : FishingVisionCfg) (f : Frame) :
    Except CvError (ℕ × ℕ × ℤ × ℤ × ℚ × ℚ) :=
  match get_image_template f.h f.w cfg.tmplH cfg.tmplW f.tm cfg.lower_scale
      cfg.higher_scale cfg.num_templates_searches cfg.resize_factor with
  | .error e => .error e
  | .ok t =>
    .ok (t.x + BORDER_OFFSET, t.y + BORDER_OFFSET + BORDER_OFFSET_TITLE,
         (t.width : ℤ) - 2 * (BORDER_OFFSET : ℤ),
         (t.height : ℤ) - 2 * (BORDER_OFFSET : ℤ) - (BORDER_OFFSET_TITLE : ℤ),
         t.corr, t.scale)

/-- FishingVision.get_fishing_state: template-match gate, then (only when
the correlation exceeds GAME_THRESHOLD) the circle pixel-sum test and the
fish bounding-box search over the crop; the fish coordinates are offset by
the crop corner.  The second component is the debug image written to
self.__dbg_image (none when debug is off). -/
def get_fishing_state (cfg : FishingVisionCfg) (f : Frame) :
    Except CvError (FishState × Option DbgRender) :=
  match get_game_template_crop cfg f with
  | .error e => .error e
  | .ok (cx, cy, cw, ch, corr, _scale) =>
    if corr > GAME_THRESHOLD then
      let fishable_confidence := f.grabSum cx cy cw ch
      let is_fishable : Bool := decide (fishable_confidence > GRAB_THRESHOLD_SUM)
      match f.fishRect cx cy cw ch with
      | some (x_fish, y_fish, w_fish, h_fish) =>
        .ok (⟨x_fish + cx, y_fish + cy, w_fish, h_fish, is_fishable, true, true⟩,
             if cfg.debug then some (.active cx cy is_fishable true) else none)
      | none =>
        .ok (⟨0 + cx, 0 + cy, 0, 0, is_fishable, false, true⟩,
             if cfg.debug then some (.active cx cy is_fishable false) else none)
    else
      .ok (⟨0, 0, 0, 0, false, false, false⟩,
           if cfg.debug then some (.inactive cx cy) else none)

/-- FishingVision.get_debug_frame: the stored debug image when debug mode
is on, None otherwise. -/
def get_debug_frame (cfg : FishingVisionCfg) (dbg : Option DbgRender) : Option DbgRender :=
  if cfg.debug then dbg else none

/-! ## FishingBot state machine -/

/-- The three state names of FishingBot.__states. -/
inductive StateName where
  | PULLING_ROD
  | SEARCHING_FISH
  | WAIT_AFTER_CLICK
deriving DecidableEq

/-- The max_timeout_sec of each state (4, 15, 1). -/
def stateTimeout : StateName → ℚ
  | .PULLING_ROD => 4
  | .SEARCHING_FISH => 15
  | .WAIT_AFTER_CLICK => 1

/-- The mutable bookkeeping of a FishingBot: the current state with its
absolute deadline (State.end_time) and the counters (__stats and
__fish_striked). -/
structure BotState where
  current : StateName
  deadline : ℚ
  fish_caught : ℕ
  clicks_sent : ℕ
  fish_striked : ℕ
deriving DecidableEq

/-- The feature payload stored in image_data and passed by keyword to the
state actions. -/
structure Snapshot where
  x : ℤ
  y : ℤ
  w : ℤ
  h : ℤ
  fishable : Bool
  fish_detectable : Bool
  game_on : Bool
deriving DecidableEq

/-- Externally visible effects of one decision tick, in order: key press
and click intents with their randomized delay bounds, the sleeps of
state_putting_bait with their sampled durations, and state entries. -/
inductive BotEvent where
  | keyPress (key : String) (delayMin delayMax : ℚ)
  | sleep (duration : ℚ)
  | mouseMove (x y : ℚ)
  | mouseClick (delayMin delayMax : ℚ)
  | enterState (s : StateName)
deriving DecidableEq

/-- FishingBot.change_state: on a transition into PULLING_ROD, credit a
catch iff at least 3 strikes happened and reset the strike counter; then
make the target current and restart its deadline (State.start). -/
def change_state (now : ℚ) (target : StateName) (s : BotState) :
    BotState × List BotEvent :=
  let s1 :=
    if target = .PULLING_ROD then
      { s with
        fish_caught := if 3 ≤ s.fish_striked then s.fish_caught + 1 else s.fish_caught,
        fish_striked := 0 }
    else s
  ({ s1 with current := target, deadline := now + stateTimeout target },
   [.enterState target])

/-- FishingBot.send_fish_click: move the cursor to (x, y), count the
strike and the click, then left-click with delay bounds 0.01 to 0.05. -/
def send_fish_click (x y : ℚ) (s : BotState) : BotState × List BotEvent :=
  ({ s with fish_striked := s.fish_striked + 1, clicks_sent := s.clicks_sent + 1 },
   [.mouseMove x y, .mouseClick (1/100) (1/20)])

/-- FishingBot.state_pulling_rod: as soon as the game window is detected,
move to SEARCHING_FISH. -/
def state_pulling_rod (now : ℚ) (snap : Snapshot) (s : BotState) :
    BotState × List BotEvent :=
  if snap.game_on then change_state now .SEARCHING_FISH s else (s, [])

/-- FishingBot.state_searching_fish: abort to PULLING_ROD when the game
window is gone; click the centre of the fish box and move to
WAIT_AFTER_CLICK when the fish is detectable and fishable; otherwise do
nothing. -/
def state_searching_fish (now : ℚ) (snap : Snapshot) (s : BotState) :
    BotState × List BotEvent :=
  if !snap.game_on then change_state now .PULLING_ROD s
  else if snap.fish_detectable && snap.fishable then
    let c := send_fish_click ((snap.x : ℚ) + (snap.w : ℚ) / 2)
      ((snap.y : ℚ) + (snap.h : ℚ) / 2) s
    let t := change_state now .WAIT_AFTER_CLICK c.1
    (t.1, c.2 ++ t.2)
  else (s, [])

/-- FishingBot.state_putting_bait (the PULLING_ROD timeout action): press
the bait key, sleep a uniform(0.1, 0.2) sample d1, press the start key,
change state to SEARCHING_FISH, and only then sleep a uniform(1.5, 3)
sample d2. -/
def state_putting_bait (now d1 d2 : ℚ) (s : BotState) : BotState × List BotEvent :=
  let t := change_state now .SEARCHING_FISH s
  (t.1,
   [.keyPress "1" (1/10) (3/10), .sleep d1, .keyPress "space" (1/10) (3/10)]
     ++ t.2 ++ [.sleep d2])

/-- FishingBot.on_process: one decision tick over the current feature
payload.  If the current state's deadline has passed (is_time_up, a strict
comparison) run its timeout action, otherwise its tick action.  d1 and d2
are the delay samples state_putting_bait would draw. -/
def on_process (now d1 d2 : ℚ) (snap : Snapshot) (s : BotState) :
    BotState × List BotEvent :=
  if now > s.deadline then
    match s.current with
    | .PULLING_ROD => state_putting_bait now d1 d2 s
    | .SEARCHING_FISH => change_state now .PULLING_ROD s
    | .WAIT_AFTER_CLICK => change_state now .SEARCHING_FISH s
  else
    match s.current with
    | .PULLING_ROD => state_pulling_rod now snap s
    | .SEARCHING_FISH => state_searching_fish now snap s
    | .WAIT_AFTER_CLICK => (s, [])

/-- The scales get_image_template actually evaluates on a given call: the
break-free front of the descending linspace iteration, over the
downsampled dimensions. -/
def triedScales (imgH imgW tmplH tmplW : ℕ) (low high : ℚ) (num : ℕ) (rf : ℚ) :
    List ℚ :=
  evalPrefix (dsDim rf imgH) (dsDim rf imgW) (dsDim rf tmplH) (dsDim rf tmplW)
    ((linspace low high num).reverse)

/-- The correlation the match oracle reports at a given scale. -/
def scaleScore (imgH imgW : ℕ) (rf : ℚ) (o : TMOracle) (s : ℚ) : ℚ :=
  (mkFound o (dsDim rf imgH) (dsDim rf imgW) s).maxVal

/-! ## Helper lemmas -/

theorem pyInt_natCast (n : ℕ) : pyInt (n : ℚ) = n := by
  simp [pyInt]

/-- The scale loop is the fold of its body over the break-free front
segment of the scale list. -/
theorem scanScales_eq_foldl (o : TMOracle) (gH gW tH tW : ℕ) :
    ∀ (l : List ℚ) (acc : Option TMatch),
      scanScales o gH gW tH tW l acc =
        (evalPrefix gH gW tH tW l).foldl (tmStep o gH gW) acc := by
  intro l
  induction l with
  | nil => intro acc; rfl
  | cons s rest ih =>
    intro acc
    simp only [scanScales, evalPrefix]
    by_cases hskip : skipScale gH gW tH tW s
    · rw [if_pos hskip, if_pos hskip]
      rfl
    · rw [if_neg hskip, if_neg hskip, List.foldl_cons, ih]

/-- The evaluated front segment is a sublist of the scale list. -/
theorem evalPrefix_sublist (gH gW tH tW : ℕ) :
    ∀ l : List ℚ, (evalPrefix gH gW tH tW l).Sublist l := by
  intro l
  induction l with
  | nil => exact List.Sublist.refl _
  | cons s rest ih =>
    simp only [evalPrefix]
    by_cases hskip : skipScale gH gW tH tW s
    · rw [if_pos hskip]
      exact List.nil_sublist _
    · rw [if_neg hskip]
      exact ih.cons₂ s

/-- When low is at most high, the linspace samples are nondecreasing. -/
theorem linspace_pairwise_le (low high : ℚ) (num : ℕ) (h : low ≤ high) :
    (linspace low high num).Pairwise (· ≤ ·) := by
  by_cases h0 : num = 0
  · simp [linspace, h0]
  by_cases h1 : num = 1
  · simp [linspace, h0, h1]
  have hls : linspace low high num =
      (List.range num).map
        (fun i : ℕ => low + (i : ℚ) * (high - low) / ((num : ℚ) - 1)) := by
    simp [linspace, h0, h1]
  rw [hls]
  refine List.Pairwise.map _ ?_ (List.pairwise_lt_range num)
  intro a b hab
  have h2 : (2 : ℕ) ≤ num := by omega
  have hn : (0 : ℚ) < (num : ℚ) - 1 := by
    have : (2 : ℚ) ≤ (num : ℚ) := by exact_mod_cast h2
    linarith
  have hd : (0 : ℚ) ≤ high - low := sub_nonneg.mpr h
  have hab2 : (a : ℚ) ≤ (b : ℚ) := by exact_mod_cast hab.le
  have hmul : (a : ℚ) * (high - low) ≤ (b : ℚ) * (high - low) :=
    mul_le_mul_of_nonneg_right hab2 hd
  have hdiv : (a : ℚ) * (high - low) / ((num : ℚ) - 1) ≤
      (b : ℚ) * (high - low) / ((num : ℚ) - 1) :=
    (div_le_div_iff_of_pos_right hn).mpr hmul
  linarith

/-- Characterisation of the strict-improvement arg-max fold: starting from
a candidate f, the fold result either is f itself (nothing beat it: every
later score is at most f's) or is the candidate of the first list entry
strictly improving on everything before it, with no later entry strictly
above it. -/
theorem foldl_tmStep_char (o : TMOracle) (gH gW : ℕ) :
    ∀ (l : List ℚ) (f : TMatch),
      ∃ g, l.foldl (tmStep o gH gW) (some f) = some g
      ∧ ((g = f ∧ ∀ s ∈ l, (mkFound o gH gW s).maxVal ≤ f.maxVal)
        ∨ (∃ i, ∃ hi : i < l.length,
            g = mkFound o gH gW (l.get ⟨i, hi⟩)
            ∧ f.maxVal < g.maxVal
            ∧ (∀ j (hj : j < l.length), j < i →
                (mkFound o gH gW (l.get ⟨j, hj⟩)).maxVal < g.maxVal)
            ∧ (∀ j (hj : j < l.length),
                (mkFound o gH gW (l.get ⟨j, hj⟩)).maxVal ≤ g.maxVal))) := by
  intro l
  induction l with
  | nil =>
    intro f
    exact ⟨f, rfl, Or.inl ⟨rfl, by simp⟩⟩
  | cons s rest ih =>
    intro f
    by_cases hgt : (mkFound o gH gW s).maxVal > f.maxVal
    · obtain ⟨g, hfold, hchar⟩ := ih (mkFound o gH gW s)
      refine ⟨g, ?_, Or.inr ?_⟩
      · rw [List.foldl_cons,
          show tmStep o gH gW (some f) s = some (mkFound o gH gW s) from by
            simp [tmStep, hgt]]
        exact hfold
      · rcases hchar with ⟨hg, hall⟩ | ⟨i, hi, hg, hlt, hbefore, hall⟩
        · refine ⟨0, by simp, hg, ?_, ?_, ?_⟩
          · rw [hg]
            exact hgt
          · intro j hj hj0
            exact absurd hj0 (Nat.not_lt_zero j)
          · intro j hj
            cases j with
            | zero =>
              rw [hg]
              exact le_rfl
            | succ k =>
              rw [hg]
              exact hall (rest.get ⟨k, by simpa using hj⟩) (List.get_mem _ _ _)
        · refine ⟨i + 1, by simpa using hi, hg, lt_trans hgt hlt, ?_, ?_⟩
          · intro j hj hji
            cases j with
            | zero => exact hlt
            | succ k => exact hbefore k (by simpa using hj) (by omega)
          · intro j hj
            cases j with
            | zero => exact le_of_lt hlt
            | succ k => exact hall k (by simpa using hj)
    · obtain ⟨g, hfold, hchar⟩ := ih f
      refine ⟨g, ?_, ?_⟩
      · rw [List.foldl_cons,
          show tmStep o gH gW (some f) s = some f from by simp [tmStep, hgt]]
        exact hfold
      · rcases hchar with ⟨hg, hall⟩ | ⟨i, hi, hg, hlt, hbefore, hall⟩
        · refine Or.inl ⟨hg, ?_⟩
          intro x hx
          rcases List.mem_cons.mp hx with rfl | hmem
          · exact not_lt.mp hgt
          · exact hall x hmem
        · refine Or.inr ⟨i + 1, by simpa using hi, hg, hlt, ?_, ?_⟩
          · intro j hj hji
            cases j with
            | zero => exact lt_of_le_of_lt (not_lt.mp hgt) hlt
            | succ k => exact hbefore k (by simpa using hj) (by omega)
          · intro j hj
            cases j with
            | zero => exact le_of_lt (lt_of_le_of_lt (not_lt.mp hgt) hlt)
            | succ k => exact hall k (by simpa using hj)

/-- A successful scan starting from no candidate returns the candidate of
the first evaluated scale attaining the maximal score: every evaluated
scale scores at most it, and every scale tried before it scores strictly
below it. -/
theorem scanScales_none_argmax (o : TMOracle) (gH gW tH tW : ℕ) (l : List ℚ)
    (fnd : TMatch)
    (h : scanScales o gH gW tH tW l none = some fnd) :
    ∃ i, ∃ hi : i < (evalPrefix gH gW tH tW l).length,
      fnd = mkFound o gH gW ((evalPrefix gH gW tH tW l).get ⟨i, hi⟩)
      ∧ (∀ j (hj : j < (evalPrefix gH gW tH tW l).length),
          (mkFound o gH gW ((evalPrefix gH gW tH tW l).get ⟨j, hj⟩)).maxVal ≤
            fnd.maxVal)
      ∧ (∀ j (hj : j < (evalPrefix gH gW tH tW l).length), j < i →
          (mkFound o gH gW ((evalPrefix gH gW tH tW l).get ⟨j, hj⟩)).maxVal <
            fnd.maxVal) := by
  rw [scanScales_eq_foldl] at h
  rcases hEl : evalPrefix gH gW tH tW l with _ | ⟨s, E⟩
  · rw [hEl] at h
    simp at h
  · rw [hEl] at h
    rw [List.foldl_cons,
      show tmStep o gH gW none s = some (mkFound o gH gW s) from rfl] at h
    obtain ⟨g, hfold, hchar⟩ := foldl_tmStep_char o gH gW E (mkFound o gH gW s)
    rw [hfold] at h
    obtain rfl : g = fnd := Option.some.inj h
    rcases hchar with ⟨hg, hall⟩ | ⟨i, hi, hg, hlt, hbefore, hall⟩
    · refine ⟨0, by simp, hg, ?_, ?_⟩
      · intro j hj
        cases j with
        | zero =>
          rw [hg]
          exact le_rfl
        | succ k =>
          rw [hg]
          exact hall (E.get ⟨k, by simpa using hj⟩) (List.get_mem _ _ _)
      · intro j hj hj0
        exact absurd hj0 (Nat.not_lt_zero j)
    · refine ⟨i + 1, by simpa using hi, hg, ?_, ?_⟩
      · intro j hj
        cases j with
        | zero => exact le_of_lt hlt
        | succ k => exact hall k (by simpa using hj)
      · intro j hj hji
        cases j with
        | zero => exact hlt
        | succ k => exact hbefore k (by simpa using hj) (by omega)

/-- Every bookkeeping tuple the scale loop can produce stores
r = 1/scale. -/
theorem scanScales_r_inv (o : TMOracle) (gH gW tH tW : ℕ) :
    ∀ (l : List ℚ) (acc : Option TMatch) (fnd : TMatch),
      (∀ g, acc = some g → g.r = 1 / g.scale) →
      scanScales o gH gW tH tW l acc = some fnd → fnd.r = 1 / fnd.scale := by
  intro l
  induction l with
  | nil =>
    intro acc fnd hacc h
    exact hacc fnd h
  | cons s rest ih =>
    intro acc fnd hacc h
    simp only [scanScales] at h
    by_cases hskip : skipScale gH gW tH tW s
    · rw [if_pos hskip] at h
      exact hacc fnd h
    · rw [if_neg hskip] at h
      refine ih _ fnd ?_ h
      intro g hg
      cases acc with
      | none =>
        simp only [tmStep] at hg
        cases hg
        rfl
      | some f =>
        simp only [tmStep] at hg
        by_cases himp : (mkFound o gH gW s).maxVal > f.maxVal
        · rw [if_pos himp] at hg
          cases hg
          rfl
        · rw [if_neg himp] at hg
          cases hg
          exact hacc _ rfl

/-! ## Claim theorems -/

/-- C1 (amended): a snapshot delivered in SEARCHING_FISH before the
deadline: if game_on is false the machine transitions to PULLING_ROD,
which as part of the PULLING_ROD entry resets fish_striked to 0 and
credits a catch iff fish_striked was at least 3 (clicks_sent unchanged);
if the fish is detectable and fishable it clicks the centre of the fish
box, increments fish_striked and clicks_sent by exactly 1 and moves to
WAIT_AFTER_CLICK; otherwise state and counters are untouched. -/
theorem C1_searching_tick (now d1 d2 : ℚ) (snap : Snapshot) (s : BotState)
    (hcur : s.current = .SEARCHING_FISH)
    (htime : ¬ now > s.deadline) :
    (snap.game_on = false →
      (on_process now d1 d2 snap s).1 =
        ⟨.PULLING_ROD, now + 4,
         if 3 ≤ s.fish_striked then s.fish_caught + 1 else s.fish_caught,
         s.clicks_sent, 0⟩
      ∧ (on_process now d1 d2 snap s).2 = [.enterState .PULLING_ROD])
    ∧ (snap.game_on = true → snap.fish_detectable = true → snap.fishable = true →
      (on_process now d1 d2 snap s).1 =
        ⟨.WAIT_AFTER_CLICK, now + 1, s.fish_caught, s.clicks_sent + 1,
         s.fish_striked + 1⟩
      ∧ (on_process now d1 d2 snap s).2 =
        [.mouseMove ((snap.x : ℚ) + (snap.w : ℚ) / 2)
           ((snap.y : ℚ) + (snap.h : ℚ) / 2),
         .mouseClick (1/100) (1/20), .enterState .WAIT_AFTER_CLICK])
    ∧ (snap.game_on = true → (snap.fish_detectable && snap.fishable) = false →
      on_process now d1 d2 snap s = (s, [])) := by
  refine ⟨?_, ?_, ?_⟩
  · intro hg
    constructor <;>
      simp [on_process, htime, hcur, state_searching_fish, change_state,
        send_fish_click, stateTimeout, hg]
  · intro hg hd hf
    constructor <;>
      simp [on_process, htime, hcur, state_searching_fish, change_state,
        send_fish_click, stateTimeout, hg, hd, hf]
  · intro hg hdf
    simp [on_process, htime, hcur, state_searching_fish, change_state,
      send_fish_click, stateTimeout, hg, hdf]

/-- C1 counterexample: in SEARCHING_FISH with fish_striked = 2 and the
deadline not passed, a game_on = false snapshot changes the strike counter
(2 becomes 0 on the PULLING_ROD entry), refuting the claimed
"no counter change" of the abort branch. -/
theorem C1_counterexample_abort_changes_counters :
    ¬ (0 : ℚ) > (10 : ℚ)
    ∧ (⟨.SEARCHING_FISH, 10, 0, 5, 2⟩ : BotState).fish_striked = 2
    ∧ (on_process 0 0 0 ⟨0, 0, 0, 0, false, false, false⟩
        ⟨.SEARCHING_FISH, 10, 0, 5, 2⟩).1.fish_striked = 0
    ∧ (0 : ℕ) ≠ 2 := by
  refine ⟨by norm_num, rfl, ?_, by norm_num⟩
  norm_num [on_process, state_searching_fish, change_state, stateTimeout]

/-- C1 witness: the amended click branch on a concrete snapshot. -/
theorem C1_searching_tick_witness :
    (on_process 0 0 0 ⟨40, 60, 10, 20, true, true, true⟩
        ⟨.SEARCHING_FISH, 10, 1, 5, 2⟩).1 =
      ⟨.WAIT_AFTER_CLICK, (0 : ℚ) + 1, 1, 5 + 1, 2 + 1⟩
    ∧ (on_process 0 0 0 ⟨40, 60, 10, 20, true, true, true⟩
        ⟨.SEARCHING_FISH, 10, 1, 5, 2⟩).2 =
      [.mouseMove (((40 : ℤ) : ℚ) + ((10 : ℤ) : ℚ) / 2)
         (((60 : ℤ) : ℚ) + ((20 : ℤ) : ℚ) / 2),
       .mouseClick (1/100) (1/20), .enterState .WAIT_AFTER_CLICK] :=
  (C1_searching_tick 0 0 0 ⟨40, 60, 10, 20, true, true, true⟩
    ⟨.SEARCHING_FISH, 10, 1, 5, 2⟩ rfl (by norm_num)).2.1 rfl rfl rfl

/-- C2: fish_striked is zeroed on every transition into PULLING_ROD, and
exactly there fish_caught is credited by 1 iff fish_striked was at least
3; transitions into the other states leave both untouched; and the only
step of on_process that moves fish_striked to a value other than 0 or its
old value is the click action of the SEARCHING_FISH tick, which adds
exactly 1; fish_caught changes only by that PULLING_ROD-entry credit. -/
theorem C2_episode_counter_invariant :
    (∀ (now : ℚ) (s : BotState),
      (change_state now .PULLING_ROD s).1.fish_striked = 0
      ∧ (change_state now .PULLING_ROD s).1.fish_caught =
          (if 3 ≤ s.fish_striked then s.fish_caught + 1 else s.fish_caught))
    ∧ (∀ (now : ℚ) (tgt : StateName) (s : BotState), tgt ≠ .PULLING_ROD →
      (change_state now tgt s).1.fish_striked = s.fish_striked
      ∧ (change_state now tgt s).1.fish_caught = s.fish_caught)
    ∧ (∀ (now d1 d2 : ℚ) (snap : Snapshot) (s : BotState),
      (on_process now d1 d2 snap s).1.fish_striked ≠ s.fish_striked →
      (on_process now d1 d2 snap s).1.fish_striked ≠ 0 →
      s.current = .SEARCHING_FISH ∧ ¬ now > s.deadline
      ∧ snap.game_on = true ∧ snap.fish_detectable = true ∧ snap.fishable = true
      ∧ (on_process now d1 d2 snap s).1.fish_striked = s.fish_striked + 1
      ∧ (on_process now d1 d2 snap s).1.current = .WAIT_AFTER_CLICK)
    ∧ (∀ (now d1 d2 : ℚ) (snap : Snapshot) (s : BotState),
      (on_process now d1 d2 snap s).1.fish_caught ≠ s.fish_caught →
      (on_process now d1 d2 snap s).1.current = .PULLING_ROD
      ∧ 3 ≤ s.fish_striked
      ∧ (on_process now d1 d2 snap s).1.fish_caught = s.fish_caught + 1) := by
  refine ⟨?_, ?_, ?_, ?_⟩
  · intro now s
    constructor <;> simp [change_state]
  · intro now tgt s h
    constructor <;> simp [change_state, h]
  · intro now d1 d2 snap s h1 h2
    by_cases ht : now > s.deadline
    · exfalso
      cases hc : s.current with
      | PULLING_ROD =>
        apply h1
        simp [on_process, ht, hc, state_putting_bait, change_state]
      | SEARCHING_FISH =>
        apply h2
        simp [on_process, ht, hc, change_state]
      | WAIT_AFTER_CLICK =>
        apply h1
        simp [on_process, ht, hc, change_state]
    · cases hc : s.current with
      | PULLING_ROD =>
        exfalso
        apply h1
        by_cases hg : snap.game_on <;>
          simp [on_process, ht, hc, state_pulling_rod, change_state, hg]
      | SEARCHING_FISH =>
        by_cases hg : snap.game_on
        · by_cases hdf : snap.fish_detectable && snap.fishable
          · rw [Bool.and_eq_true] at hdf
            refine ⟨rfl, ht, hg, hdf.1, hdf.2, ?_, ?_⟩ <;>
              simp [on_process, ht, hc, state_searching_fish, hg, hdf.1, hdf.2,
                change_state, send_fish_click]
          · exfalso
            apply h1
            simp only [Bool.not_eq_true] at hdf
            simp [on_process, ht, hc, state_searching_fish, hg, hdf]
        · exfalso
          apply h2
          simp only [Bool.not_eq_true] at hg
          simp [on_process, ht, hc, state_searching_fish, hg, change_state]
      | WAIT_AFTER_CLICK =>
        exfalso
        apply h1
        simp [on_process, ht, hc]
  · intro now d1 d2 snap s h1
    by_cases ht : now > s.deadline
    · cases hc : s.current with
      | PULLING_ROD =>
        exfalso
        apply h1
        simp [on_process, ht, hc, state_putting_bait, change_state]
      | SEARCHING_FISH =>
        by_cases h3 : 3 ≤ s.fish_striked
        · refine ⟨?_, h3, ?_⟩ <;> simp [on_process, ht, hc, change_state, h3]
        · exfalso
          apply h1
          simp [on_process, ht, hc, change_state, h3]
      | WAIT_AFTER_CLICK =>
        exfalso
        apply h1
        simp [on_process, ht, hc, change_state]
    · cases hc : s.current with
      | PULLING_ROD =>
        exfalso
        apply h1
        by_cases hg : snap.game_on <;>
          simp [on_process, ht, hc, state_pulling_rod, change_state, hg]
      | SEARCHING_FISH =>
        by_cases hg : snap.game_on
        · by_cases hdf : snap.fish_detectable && snap.fishable
          · exfalso
            apply h1
            rw [Bool.and_eq_true] at hdf
            simp [on_process, ht, hc, state_searching_fish, hg, hdf.1, hdf.2,
              change_state, send_fish_click]
          · exfalso
            apply h1
            simp only [Bool.not_eq_true] at hdf
            simp [on_process, ht, hc, state_searching_fish, hg, hdf]
        · by_cases h3 : 3 ≤ s.fish_striked
          · simp only [Bool.not_eq_true] at hg
            refine ⟨?_, h3, ?_⟩ <;>
              simp [on_process, ht, hc, state_searching_fish, hg, change_state, h3]
          · exfalso
            apply h1
            simp only [Bool.not_eq_true] at hg
            simp [on_process, ht, hc, state_searching_fish, hg, change_state, h3]
      | WAIT_AFTER_CLICK =>
        exfalso
        apply h1
        simp [on_process, ht, hc]

/-- C2 witness: a transition into WAIT_AFTER_CLICK leaves both counters
untouched. -/
theorem C2_episode_counter_invariant_witness :
    (change_state 0 .WAIT_AFTER_CLICK ⟨.SEARCHING_FISH, 10, 4, 9, 3⟩).1.fish_striked = 3
    ∧ (change_state 0 .WAIT_AFTER_CLICK ⟨.SEARCHING_FISH, 10, 4, 9, 3⟩).1.fish_caught = 4 :=
  C2_episode_counter_invariant.2.1 0 .WAIT_AFTER_CLICK
    ⟨.SEARCHING_FISH, 10, 4, 9, 3⟩ (by decide)

/-- C7: on every successful locate with low at most high, the returned
correlation is the maximum over the evaluated (descending, linearly
spaced) scales, the returned scale is the first evaluated scale attaining
it (an equal score never replaces the running best: every earlier scale
scores strictly below), and any evaluated scale tying the maximum is at
most the returned one. -/
theorem C7_descending_first_argmax (imgH imgW tmplH tmplW : ℕ) (o : TMOracle)
    (low high rf : ℚ) (num : ℕ) (res : TMResult)
    (hlh : low ≤ high)
    (hres : get_image_template imgH imgW tmplH tmplW o low high num rf = .ok res) :
    ∃ i, ∃ hi : i < (triedScales imgH imgW tmplH tmplW low high num rf).length,
      res.scale = (triedScales imgH imgW tmplH tmplW low high num rf).get ⟨i, hi⟩
      ∧ res.corr = scaleScore imgH imgW rf o res.scale
      ∧ (∀ j (hj : j < (triedScales imgH imgW tmplH tmplW low high num rf).length),
          scaleScore imgH imgW rf o
            ((triedScales imgH imgW tmplH tmplW low high num rf).get ⟨j, hj⟩)
            ≤ res.corr)
      ∧ (∀ j (hj : j < (triedScales imgH imgW tmplH tmplW low high num rf).length),
          scaleScore imgH imgW rf o
            ((triedScales imgH imgW tmplH tmplW low high num rf).get ⟨j, hj⟩)
            = res.corr →
          i ≤ j
          ∧ (triedScales imgH imgW tmplH tmplW low high num rf).get ⟨j, hj⟩
              ≤ res.scale) := by
  by_cases hrf : rf > 1
  · simp [get_image_template, hrf] at hres
  · simp only [get_image_template, if_neg hrf] at hres
    cases hscan : scanScales o (dsDim rf imgH) (dsDim rf imgW) (dsDim rf tmplH)
        (dsDim rf tmplW) ((linspace low high num).reverse) none with
    | none =>
      rw [hscan] at hres
      exact absurd hres (by simp)
    | some fnd =>
      rw [hscan] at hres
      have hEq := Except.ok.inj hres
      have hcorr : res.corr = fnd.maxVal := by rw [← hEq]
      have hscale : res.scale = fnd.scale := by rw [← hEq]
      obtain ⟨i, hi, hfnd, hall, hbefore⟩ :=
        scanScales_none_argmax o (dsDim rf imgH) (dsDim rf imgW) (dsDim rf tmplH)
          (dsDim rf tmplW) ((linspace low high num).reverse) fnd hscan
      have hpair : (triedScales imgH imgW tmplH tmplW low high num rf).Pairwise
          (fun a b => b ≤ a) :=
        List.Pairwise.sublist (evalPrefix_sublist _ _ _ _ _)
          (List.pairwise_reverse.mpr (linspace_pairwise_le low high num hlh))
      refine ⟨i, hi, ?_, ?_, ?_, ?_⟩
      · rw [hscale, hfnd]
        rfl
      · rw [hcorr, hscale, hfnd]
        rfl
      · intro j hj
        rw [hcorr]
        exact hall j hj
      · intro j hj hjs
        have hjs2 : (mkFound o (dsDim rf imgH) (dsDim rf imgW)
            ((triedScales imgH imgW tmplH tmplW low high num rf).get ⟨j, hj⟩)).maxVal
            = fnd.maxVal := by rw [← hcorr]; exact hjs
        have hij : ¬ j < i := by
          intro hji
          exact absurd hjs2 (ne_of_lt (hbefore j hj hji))
        refine ⟨not_lt.mp hij, ?_⟩
        rw [hscale, hfnd]
        rcases Nat.lt_or_ge i j with hij2 | hij2
        · exact List.pairwise_iff_get.mp hpair ⟨i, hi⟩ ⟨j, hj⟩ (Fin.mk_lt_mk.mpr hij2)
        · have hije : i = j := le_antisymm (not_lt.mp hij) hij2
          subst hije
          exact le_rfl

/-- C7 witness: three descending scales 1, 3/4, 1/2 with scores 2, 2, 1:
the tie at the maximum is resolved to the earlier, higher scale 1. -/
theorem C7_descending_first_argmax_witness :
    ∃ i, ∃ hi : i < (triedScales 100 100 10 10 (1/2) 1 3 1).length,
      (TMResult.mk 5 6 10 10 2 1).scale =
        (triedScales 100 100 10 10 (1/2) 1 3 1).get ⟨i, hi⟩
      ∧ (TMResult.mk 5 6 10 10 2 1).corr =
          scaleScore 100 100 1 (fun _ _ s => (if s = 1 ∨ s = 3/4 then 2 else 1, 5, 6))
            (TMResult.mk 5 6 10 10 2 1).scale
      ∧ (∀ j (hj : j < (triedScales 100 100 10 10 (1/2) 1 3 1).length),
          scaleScore 100 100 1 (fun _ _ s => (if s = 1 ∨ s = 3/4 then 2 else 1, 5, 6))
            ((triedScales 100 100 10 10 (1/2) 1 3 1).get ⟨j, hj⟩)
            ≤ (TMResult.mk 5 6 10 10 2 1).corr)
      ∧ (∀ j (hj : j < (triedScales 100 100 10 10 (1/2) 1 3 1).length),
          scaleScore 100 100 1 (fun _ _ s => (if s = 1 ∨ s = 3/4 then 2 else 1, 5, 6))
            ((triedScales 100 100 10 10 (1/2) 1 3 1).get ⟨j, hj⟩)
            = (TMResult.mk 5 6 10 10 2 1).corr →
          i ≤ j
          ∧ (triedScales 100 100 10 10 (1/2) 1 3 1).get ⟨j, hj⟩
              ≤ (TMResult.mk 5 6 10 10 2 1).scale) :=
  C7_descending_first_argmax 100 100 10 10
    (fun _ _ s => (if s = 1 ∨ s = 3/4 then 2 else 1, 5, 6)) (1/2) 1 1 3
    ⟨5, 6, 10, 10, 2, 1⟩ (by norm_num)
    (by norm_num [get_image_template, scanScales, skipScale, tmStep, mkFound,
      linspace, dsDim, pyInt, int_toNat_ofNat, List.range_succ])

/-- C8 (amended): when PULLING_ROD times out, the machine presses the
put-bait key, sleeps the short uniform(0.1, 0.2) sample, presses the start
key, then immediately transitions to SEARCHING_FISH (restarting its 15s
deadline from the tick time) and only afterwards sleeps the long
uniform(1.5, 3) sample, so the SEARCHING_FISH deadline starts before the
longer delay has elapsed. -/
theorem C8_bait_sequence (now d1 d2 : ℚ) (snap : Snapshot) (s : BotState)
    (hcur : s.current = .PULLING_ROD)
    (htime : now > s.deadline)
    (_hd1 : 1/10 ≤ d1 ∧ d1 ≤ 1/5)
    (_hd2 : 3/2 ≤ d2 ∧ d2 ≤ 3) :
    on_process now d1 d2 snap s =
      ((change_state now .SEARCHING_FISH s).1,
       [.keyPress "1" (1/10) (3/10), .sleep d1, .keyPress "space" (1/10) (3/10),
        .enterState .SEARCHING_FISH, .sleep d2])
    ∧ (change_state now .SEARCHING_FISH s).1.deadline = now + 15 := by
  constructor
  · simp [on_process, htime, hcur, state_putting_bait, change_state]
  · simp [change_state, stateTimeout]

/-- C8 counterexample: the concrete timeout trace places the
SEARCHING_FISH entry before the long sleep, so it differs from the claimed
order (long sleep before the transition). -/
theorem C8_counterexample_transition_before_long_sleep :
    (on_process 0 (3/20) 2 ⟨0, 0, 0, 0, false, false, false⟩
        ⟨.PULLING_ROD, -1, 0, 0, 0⟩).2 =
      [.keyPress "1" (1/10) (3/10), .sleep (3/20), .keyPress "space" (1/10) (3/10),
       .enterState .SEARCHING_FISH, .sleep 2]
    ∧ ([BotEvent.keyPress "1" (1/10) (3/10), .sleep (3/20),
        .keyPress "space" (1/10) (3/10), .enterState .SEARCHING_FISH, .sleep 2] ≠
       [BotEvent.keyPress "1" (1/10) (3/10), .sleep (3/20),
        .keyPress "space" (1/10) (3/10), .sleep 2, .enterState .SEARCHING_FISH]) := by
  constructor
  · norm_num [on_process, state_putting_bait, change_state]
  · simp

/-- C8 witness: the amended timeout sequence at concrete delays. -/
theorem C8_bait_sequence_witness :
    (on_process 0 (3/20) 2 ⟨0, 0, 0, 0, false, false, false⟩
        ⟨.PULLING_ROD, -1, 7, 8, 1⟩ =
      ((change_state 0 .SEARCHING_FISH ⟨.PULLING_ROD, -1, 7, 8, 1⟩).1,
       [.keyPress "1" (1/10) (3/10), .sleep (3/20), .keyPress "space" (1/10) (3/10),
        .enterState .SEARCHING_FISH, .sleep 2]))
    ∧ (change_state 0 .SEARCHING_FISH ⟨.PULLING_ROD, -1, 7, 8, 1⟩).1.deadline =
        (0 : ℚ) + 15 :=
  C8_bait_sequence 0 (3/20) 2 ⟨0, 0, 0, 0, false, false, false⟩
    ⟨.PULLING_ROD, -1, 7, 8, 1⟩ rfl (by norm_num) (by norm_num) (by norm_num)

/-- C3: on every frame whose template-match confidence does not exceed
GAME_THRESHOLD, get_fishing_state returns the all-zero, all-false feature
tuple, and its result does not depend on the colour observations of the
frame (the two colour-detection steps are not consulted). -/
theorem C3_gate_short_circuit (cfg : FishingVisionCfg) (f : Frame) (t : TMResult)
    (ht : get_image_template f.h f.w cfg.tmplH cfg.tmplW f.tm cfg.lower_scale
      cfg.higher_scale cfg.num_templates_searches cfg.resize_factor = .ok t)
    (hc : ¬ t.corr > GAME_THRESHOLD) :
    (get_fishing_state cfg f).map Prod.fst = .ok ⟨0, 0, 0, 0, false, false, false⟩
    ∧ ∀ (gs : ℕ → ℕ → ℤ → ℤ → ℕ) (fr : ℕ → ℕ → ℤ → ℤ → Option (ℕ × ℕ × ℕ × ℕ)),
        (get_fishing_state cfg ⟨f.h, f.w, f.tm, gs, fr⟩).map Prod.fst =
          (get_fishing_state cfg f).map Prod.fst := by
  constructor
  · simp [get_fishing_state, get_game_template_crop, ht, hc, Except.map]
  · intro gs fr
    simp [get_fishing_state, get_game_template_crop, ht, hc, Except.map]

/-- C3 witness: a concrete frame with correlation 1/2 below the 7/10
threshold yields the inactive snapshot. -/
theorem C3_gate_short_circuit_witness :
    (get_fishing_state ⟨1, 1, 1, 1, false, 100, 80⟩
        ⟨500, 500, fun _ _ _ => (1/2, 20, 30), fun _ _ _ _ => 99999999,
         fun _ _ _ _ => some (1, 2, 3, 4)⟩).map Prod.fst =
      .ok ⟨0, 0, 0, 0, false, false, false⟩ :=
  (C3_gate_short_circuit ⟨1, 1, 1, 1, false, 100, 80⟩
    ⟨500, 500, fun _ _ _ => (1/2, 20, 30), fun _ _ _ _ => 99999999,
     fun _ _ _ _ => some (1, 2, 3, 4)⟩
    ⟨20, 30, 80, 100, 1/2, 1⟩
    (by norm_num [get_image_template, scanScales, skipScale, tmStep, mkFound,
      linspace, dsDim, pyInt, int_toNat_ofNat])
    (by norm_num [GAME_THRESHOLD])).1

/-- C4: on a frame where every tested scale is skipped (here a 10x10 frame
against a 50x50 template at scale 1) the locator fails with
NoCandidateScale, and get_fishing_state propagates that failure instead of
returning a snapshot: the Python source has no handler on this path (the
unpack of found = None raises out of the per-frame processing). -/
theorem C4_no_candidate_scale_propagates :
    get_image_template 10 10 50 50 (fun _ _ _ => (1, 0, 0)) 1 1 1 1 =
      .error .noCandidateScale
    ∧ get_fishing_state ⟨1, 1, 1, 1, false, 50, 50⟩
        ⟨10, 10, fun _ _ _ => (1, 0, 0), fun _ _ _ _ => 0, fun _ _ _ _ => none⟩ =
      .error .noCandidateScale := by
  constructor
  · norm_num [get_image_template, scanScales, skipScale, tmStep, mkFound,
      linspace, dsDim, pyInt, int_toNat_ofNat]
  · norm_num [get_fishing_state, get_game_template_crop, get_image_template,
      scanScales, skipScale, tmStep, mkFound, linspace, dsDim, pyInt, int_toNat_ofNat]

/-- C5 (amended): for every winning match at scale s with downsample
factor rf at most 1, the returned location equals the matched location
multiplied by 1/s and then by 1/rf with integer truncation at each step,
but the returned size is the original (pre-downsample) template size
multiplied by 1/s only, with no 1/rf conversion step. -/
theorem C5_conversion (imgH imgW tmplH tmplW : ℕ) (o : TMOracle)
    (low high rf : ℚ) (num : ℕ) (fnd : TMatch)
    (hrf : rf ≤ 1)
    (hscan : scanScales o (dsDim rf imgH) (dsDim rf imgW) (dsDim rf tmplH)
      (dsDim rf tmplW) ((linspace low high num).reverse) none = some fnd) :
    get_image_template imgH imgW tmplH tmplW o low high num rf =
      .ok ⟨pyInt ((pyInt ((fnd.locX : ℚ) * (1 / fnd.scale)) : ℚ) * (1 / rf)),
           pyInt ((pyInt ((fnd.locY : ℚ) * (1 / fnd.scale)) : ℚ) * (1 / rf)),
           pyInt ((tmplW : ℚ) * (1 / fnd.scale)),
           pyInt ((tmplH : ℚ) * (1 / fnd.scale)),
           fnd.maxVal, fnd.scale⟩ := by
  have h1 : ¬ (rf > 1) := not_lt.mpr hrf
  have hr : fnd.r = 1 / fnd.scale :=
    scanScales_r_inv o (dsDim rf imgH) (dsDim rf imgW) (dsDim rf tmplH) (dsDim rf tmplW)
      ((linspace low high num).reverse) none fnd (fun g hg => by cases hg) hscan
  simp only [get_image_template, if_neg h1, hscan, hr]
  by_cases h2 : rf < 1
  · simp [if_pos h2]
  · have h3 : rf = 1 := le_antisymm hrf (not_lt.mp h2)
    subst h3
    simp [pyInt_natCast]

/-- C5 counterexample: frame 400x400, template 101x101, downsample factor
1/2, single scale 1.  The matched (downsampled) template width is 50 and
its claimed two-step conversion gives int(int(50 * 1) * 2) = 100, but the
function returns width 101 (the original template width times 1/scale,
never rescaled by 1/rf). -/
theorem C5_counterexample_size_not_rescaled :
    get_image_template 400 400 101 101 (fun _ _ _ => (1, 7, 7)) 1 1 1 (1/2) =
      .ok ⟨14, 14, 101, 101, 1, 1⟩
    ∧ dsDim (1/2) 101 = 50
    ∧ pyInt ((pyInt ((50 : ℚ) * (1 / 1)) : ℚ) * (1 / (1/2 : ℚ))) = 100
    ∧ (101 : ℕ) ≠ 100 := by
  refine ⟨?_, ?_, ?_, by norm_num⟩
  · norm_num [get_image_template, scanScales, skipScale, tmStep, mkFound, linspace,
      dsDim, pyInt, int_toNat_ofNat]
  · norm_num [dsDim, pyInt, int_toNat_ofNat]
  · norm_num [pyInt, int_toNat_ofNat]

/-- C5 witness: the amended conversion rule evaluated on the concrete
400x400 input. -/
theorem C5_conversion_witness :
    get_image_template 400 400 101 101 (fun _ _ _ => (1, 7, 7)) 1 1 1 (1/2) =
      .ok ⟨pyInt ((pyInt ((7 : ℚ) * (1 / 1)) : ℚ) * (1 / (1/2 : ℚ))),
           pyInt ((pyInt ((7 : ℚ) * (1 / 1)) : ℚ) * (1 / (1/2 : ℚ))),
           pyInt ((101 : ℚ) * (1 / 1)),
           pyInt ((101 : ℚ) * (1 / 1)),
           1, 1⟩ :=
  C5_conversion 400 400 101 101 (fun _ _ _ => (1, 7, 7)) 1 1 (1/2) 1 ⟨1, 7, 7, 1, 1⟩
    (by norm_num)
    (by norm_num [scanScales, skipScale, tmStep, mkFound, linspace, dsDim, pyInt,
      int_toNat_ofNat])

/-- C6 (amended): when the fish-colour mask has no contours the failure is
not fatal: get_fishing_state still returns a snapshot with
fish_detectable = false and width and height 0, but its x and y equal the
crop region's top-left corner (the 0,0 sentinel offset by the crop
corner), not 0. -/
theorem C6_no_contours (cfg : FishingVisionCfg) (f : Frame) (cx cy : ℕ)
    (cw ch : ℤ) (corr scale : ℚ)
    (hcrop : get_game_template_crop cfg f = .ok (cx, cy, cw, ch, corr, scale))
    (hcorr : corr > GAME_THRESHOLD)
    (hnone : f.fishRect cx cy cw ch = none) :
    get_fishing_state cfg f =
      .ok (⟨cx, cy, 0, 0, decide (f.grabSum cx cy cw ch > GRAB_THRESHOLD_SUM),
            false, true⟩,
           if cfg.debug then
             some (.active cx cy
               (decide (f.grabSum cx cy cw ch > GRAB_THRESHOLD_SUM)) false)
           else none) := by
  simp [get_fishing_state, hcrop, hcorr, hnone]

/-- C6 counterexample: a concrete frame with the minigame active (corr 1),
template matched at (20, 30) and an empty fish mask yields snapshot
coordinates x = 30, y = 68 (the crop corner), not the all-zero geometry
the claim states. -/
theorem C6_counterexample_offset_not_zero :
    get_fishing_state ⟨1, 1, 1, 1, false, 100, 80⟩
        ⟨500, 500, fun _ _ _ => (1, 20, 30), fun _ _ _ _ => 0, fun _ _ _ _ => none⟩ =
      .ok (⟨30, 68, 0, 0, false, false, true⟩, none)
    ∧ (30 : ℕ) ≠ 0 ∧ (68 : ℕ) ≠ 0 := by
  refine ⟨?_, by norm_num, by norm_num⟩
  norm_num [get_fishing_state, get_game_template_crop, get_image_template,
    scanScales, skipScale, tmStep, mkFound, linspace, dsDim, pyInt,
    int_toNat_ofNat, GAME_THRESHOLD, GRAB_THRESHOLD_SUM, BORDER_OFFSET,
    BORDER_OFFSET_TITLE]

/-- C6 witness: the amended no-contours behaviour on the same concrete
frame, via the general theorem. -/
theorem C6_no_contours_witness :
    get_fishing_state ⟨1, 1, 1, 1, false, 100, 80⟩
        ⟨500, 500, fun _ _ _ => (1, 20, 30), fun _ _ _ _ => 0, fun _ _ _ _ => none⟩ =
      .ok (⟨30, 68, 0, 0,
            decide ((Frame.mk 500 500 (fun _ _ _ => (1, 20, 30)) (fun _ _ _ _ => 0)
              (fun _ _ _ _ => none)).grabSum 30 68 60 52 > GRAB_THRESHOLD_SUM),
            false, true⟩, none) :=
  C6_no_contours ⟨1, 1, 1, 1, false, 100, 80⟩
    ⟨500, 500, fun _ _ _ => (1, 20, 30), fun _ _ _ _ => 0, fun _ _ _ _ => none⟩
    30 68 60 52 1 1
    (by norm_num [get_game_template_crop, get_image_template, scanScales,
      skipScale, tmStep, mkFound, linspace, dsDim, pyInt, int_toNat_ofNat,
      BORDER_OFFSET, BORDER_OFFSET_TITLE])
    (by norm_num [GAME_THRESHOLD])
    rfl

/-- C10: the feature tuple returned by get_fishing_state is identical with
debug mode on and off, and with debug off no debug image is produced
(neither stored nor returned by get_debug_frame). -/
theorem C10_debug_no_influence (cfg : FishingVisionCfg) (f : Frame) :
    (get_fishing_state { cfg with debug := true } f).map Prod.fst
      = (get_fishing_state { cfg with debug := false } f).map Prod.fst
    ∧ (get_fishing_state { cfg with debug := false } f).map Prod.snd
      = (get_fishing_state { cfg with debug := false } f).map
          (fun _ => (none : Option DbgRender))
    ∧ ∀ d, get_debug_frame { cfg with debug := false } d = none := by
  have hb : ∀ b : Bool, get_game_template_crop { cfg with debug := b } f =
      get_game_template_crop cfg f := fun b => rfl
  refine ⟨?_, ?_, fun d => rfl⟩ <;>
  · cases hcrop : get_game_template_crop cfg f with
    | error e => simp [get_fishing_state, hb, hcrop, Except.map]
    | ok tup =>
      obtain ⟨cx, cy, cw, ch, corr, sc⟩ := tup
      by_cases hc : corr > GAME_THRESHOLD
      · cases hr : f.fishRect cx cy cw ch with
        | none => simp [get_fishing_state, hb, hcrop, hc, hr, Except.map]
        | some rect =>
          obtain ⟨a, b, c, d⟩ := rect
          simp [get_fishing_state, hb, hcrop, hc, hr, Except.map]
      · simp [get_fishing_state, hb, hcrop, hc, Except.map]

/-- C9 (amended): a downsample factor greater than 1 passes construction
of the vision component unvalidated and makes every locate call fail with
InvalidConfig; for any factor at most 1 the locate operation never fails
with InvalidConfig. -/
theorem C9_invalid_config_at_locate (imgH imgW tmplH tmplW : ℕ) (o : TMOracle)
    (low high ls hs rf : ℚ) (num n : ℕ) (dbg : Bool) :
    (1 < rf →
      FishingVision.init tmplH tmplW ls hs n dbg rf =
        .ok ⟨ls, hs, n, rf, dbg, tmplH, tmplW⟩
      ∧ get_image_template imgH imgW tmplH tmplW o low high num rf =
          .error .invalidConfig)
    ∧ (rf ≤ 1 →
        get_image_template imgH imgW tmplH tmplW o low high num rf ≠
          .error .invalidConfig) := by
  constructor
  · intro h
    exact ⟨rfl, by simp [get_image_template, h]⟩
  · intro h
    have h1 : ¬ (rf > 1) := not_lt.mpr h
    simp only [get_image_template, if_neg h1]
    cases hscan : scanScales o (dsDim rf imgH) (dsDim rf imgW) (dsDim rf tmplH)
        (dsDim rf tmplW) ((linspace low high num).reverse) none with
    | none => simp
    | some fnd => simp

/-- C9 counterexample: constructing the vision component with downsample
factor 2 succeeds (no InvalidConfig is raised at construction time),
refuting the claim that a factor above 1 fails at construction. -/
theorem C9_counterexample_construction_succeeds :
    FishingVision.init 100 100 1 1 1 false 2 = .ok ⟨1, 1, 1, 2, false, 100, 100⟩
    ∧ ∀ e : CvError, FishingVision.init 100 100 1 1 1 false 2 ≠ .error e := by
  exact ⟨rfl, fun e => by simp [FishingVision.init]⟩

/-- C9 witness: factor 2 errors at locate time but not at construction;
factor 1/2 never yields InvalidConfig at locate time. -/
theorem C9_invalid_config_at_locate_witness :
    (FishingVision.init 100 100 1 1 1 false 2 = .ok ⟨1, 1, 1, 2, false, 100, 100⟩
      ∧ get_image_template 20 20 100 100 (fun _ _ _ => (1, 0, 0)) 1 1 1 2 =
          .error .invalidConfig)
    ∧ get_image_template 20 20 5 5 (fun _ _ _ => (1, 0, 0)) 1 1 1 (1/2) ≠
        .error .invalidConfig :=
  ⟨(C9_invalid_config_at_locate 20 20 100 100 (fun _ _ _ => (1, 0, 0)) 1 1 1 1 2 1 1
      false).1 (by norm_num),
   (C9_invalid_config_at_locate 20 20 5 5 (fun _ _ _ => (1, 0, 0)) 1 1 1 1 (1/2) 1 1
      false).2 (by norm_num)⟩
